import Mathlib

/-!
Verification of the Aura critical-state detection and escalation engine.

This file gives a shallow embedding of the escalation core of the Aura
repository (src/app.py, src/models.py, src/elevenlabs_integration.py) and
proves or refutes the frozen specification claims about it.

Modelling conventions:
* Python floats (sentiment ratings, confidences) are modelled as rationals.
* The database and the external collaborators (user lookup, snapshot query,
  assignment lookup, commits, the ElevenLabs voice adapter, the Twilio SMS
  sender) are modelled by an explicit environment `Env`; each call site can
  either return its value or raise, mirroring arbitrary collaborator
  behaviour.  Database rows written by the code and log lines emitted by it
  are recorded as an explicit effect trace.
* Exceptions are modelled by `Except String`; a Python `try/except` block is
  `runCatch`.  Effects performed before an exception are preserved, as they
  are in the real program.
* `send_twilio_message` (module send_message.py, not part of the sources) is
  modelled from the spec contract for the SMS channel: it sends a text and
  either succeeds or fails; a failure surfaces to the caller as an exception
  caught by the dispatcher.  Likewise `analyze_sentiment` (module gemini.py)
  is modelled as an opaque scorer returning a rating/confidence pair or
  failing.
* Numeric-to-string formatting inside rationale strings abstracts Python
  float formatting by `toString` on rationals; no claim depends on the exact
  rendering of the interpolated numbers.
-/

namespace Aura

/-! ## Enumerations (src/models.py) -/

inductive UserType
  | patient
  | doctor
deriving DecidableEq, Repr

inductive AlertType
  | suicidalIdeation
  | selfHarm
  | panic
  | severeDepression
  | abuse
deriving DecidableEq, Repr

inductive AlertSeverity
  | info
  | warning
  | critical
deriving DecidableEq, Repr

inductive NotifChannel
  | sms
  | voice
  | push
deriving DecidableEq, Repr

inductive NotifStatus
  | pending
  | sent
  | delivered
  | failed
deriving DecidableEq, Repr

inductive LogLevel
  | info
  | warning
  | error
  | critical
deriving DecidableEq, Repr

/-- A user row (src/models.py, class User); only the fields the escalation
core reads. `phone` is the normalized full phone (get_full_phone). -/
structure UserRec where
  id : Nat
  name : String
  user_type : UserType
  phone : Option String
deriving DecidableEq, Repr

/-- An active DoctorPatient assignment row (src/models.py, class
DoctorPatient): the doctor id and the doctor user row it resolves to. -/
structure AssignmentRec where
  doctor_id : Nat
  doctor : UserRec
deriving DecidableEq, Repr

/-- JSON-like values stored in the Alert.trigger_data column.  The
constructor `strSet` (a set of matched keyword strings) is part of the
observable vocabulary demanded by the spec; the code under test may or may
not ever build one. -/
inductive JVal
  | num (q : ℚ)
  | str (s : String)
  | arr (qs : List ℚ)
  | strSet (ks : List String)
deriving DecidableEq, Repr

/-- An Alert row (src/models.py, class Alert); fields set by
check_critical_mood_and_alert.  trigger_data is the JSON dict, kept as an
association list to preserve exactly which keys the code writes. -/
structure AlertRow where
  patient_id : Nat
  severity : AlertSeverity
  alert_type : AlertType
  rationale : String
  trigger_data : List (String × JVal)
deriving DecidableEq, Repr

/-! ## String helpers (Python `str.lower` and the `in` substring test) -/

/-- Python str.lower restricted to ASCII, which covers the fixed crisis
lexicon and the claims' concrete inputs. -/
def lowerStr (s : String) : String := String.mk (s.toList.map Char.toLower)

/-- `hasPref pat cs`: pat is a prefix of cs (character lists). -/
def hasPref : List Char → List Char → Bool
  | [], _ => true
  | _ :: _, [] => false
  | c :: cs, d :: ds => c == d && hasPref cs ds

/-- `hasSub pat cs`: pat occurs as a contiguous substring of cs. -/
def hasSub (pat : List Char) : List Char → Bool
  | [] => hasPref pat []
  | c :: cs => hasPref pat (c :: cs) || hasSub pat cs

/-- Python `pat in s` on strings: contiguous substring containment. -/
def strContains (s pat : String) : Bool := hasSub pat.toList s.toList

/-! ## Decision engine (src/app.py lines 46-67, pure part of
check_critical_mood_and_alert) -/

/-- The three mutable locals is_critical / alert_type / rationale of
check_critical_mood_and_alert. -/
structure DecState where
  is_critical : Bool
  alert_type : Option AlertType
  rationale : String
deriving DecidableEq, Repr

def rationale_low (r : ℚ) : String :=
  "Very low mood detected (rating: " ++ toString r ++ ")"

def rationale_decline (r avg : ℚ) : String :=
  "Rapid mood decline detected (current: " ++ toString r ++ ", recent avg: "
    ++ toString avg ++ ")"

def rationale_crisis : String := "Crisis language detected in conversation"

/-- src/app.py lines 46-60: the absolute-floor check followed by the
rapid-decline check.  `recent` is the snapshot query result: ratings
newest-first, at most 5 entries.  The local avg_recent of the source is
inlined as (recent.take 3).sum / 3. -/
def trendDecision (sentiment_rating : ℚ) (recent : List ℚ) : DecState :=
  let s0 : DecState := ⟨false, none, ""⟩
  let s1 : DecState :=
    if sentiment_rating ≤ 3/2 then
      ⟨true, some AlertType.severeDepression, rationale_low sentiment_rating⟩
    else s0
  if 3 ≤ recent.length then
    if (recent.take 3).sum / 3 ≤ 2 ∧ sentiment_rating < (recent.take 3).sum / 3 - 1 then
      ⟨true, some AlertType.severeDepression,
        rationale_decline sentiment_rating ((recent.take 3).sum / 3)⟩
    else s1
  else s1

/-- src/app.py line 62: the fixed crisis lexicon. -/
def crisis_keywords : List String :=
  ["suicide", "kill myself", "end it all", "hurt myself", "no point", "give up"]

/-- src/app.py lines 63-64: case-insensitive any-keyword substring test. -/
def crisisHit (conversation_text : String) : Bool :=
  crisis_keywords.any (fun kw => strContains (lowerStr conversation_text) kw)

/-- src/app.py lines 46-67: the full decision over current rating, recent
history and utterance text. -/
def decideAlert (sentiment_rating : ℚ) (recent : List ℚ)
    (conversation_text : String) : DecState :=
  let s := trendDecision sentiment_rating recent
  if crisisHit conversation_text then
    ⟨true, some AlertType.suicidalIdeation, rationale_crisis⟩
  else s

/-- src/app.py lines 80-84: the trigger_data JSON dict of the Alert row. -/
def triggerData (sentiment_rating : ℚ) (conversation_text : String)
    (recent : List ℚ) : List (String × JVal) :=
  [("sentiment_rating", JVal.num sentiment_rating),
   ("conversation_snippet", JVal.str (conversation_text.take 200)),
   ("recent_ratings", JVal.arr recent)]

/-! ## Effect traces and the state-exception monad -/

/-- Observable actions of the escalation core: committed database inserts,
log lines, and outbound channel attempts.  `addNotifLog` is the vocabulary
for a committed NotificationLog row (src/models.py, class NotificationLog);
whether the code ever performs it is a question settled by theorems. -/
inductive Effect
  | log (lvl : LogLevel) (msg : String)
  | addConversation
  | addMessage (sender : String) (text : String)
  | addSnapshot (rating confidence : ℚ)
  | addAlert (a : AlertRow)
  | addNotifLog (ch : NotifChannel) (st : NotifStatus)
  | voiceCallAttempt (phone : String)
  | smsSendAttempt (phone : String) (body : String)
deriving DecidableEq, Repr

/-- The mutable world the pipeline touches: the effect trace so far and the
committed SentimentSnapshot ratings of the patient, newest first. -/
structure DBState where
  effects : List Effect
  snapshots : List ℚ
deriving DecidableEq, Repr

/-- State-exception monad: a computation transforms the world and either
returns a value or raises a Python exception (modelled by its message).
State reached before the exception is preserved. -/
def M (α : Type) : Type := DBState → Except String α × DBState

def pureM {α : Type} (a : α) : M α := fun s => (Except.ok a, s)

def bindM {α β : Type} (x : M α) (f : α → M β) : M β := fun s =>
  match x s with
  | (Except.ok a, s1) => f a s1
  | (Except.error e, s1) => (Except.error e, s1)

def throwM {α : Type} (msg : String) : M α := fun s => (Except.error msg, s)

/-- Lift the outcome of an external call: either its value or the exception
it raised. -/
def liftE {α : Type} (x : Except String α) : M α := fun s => (x, s)

/-- An external call site with an environment-chosen failure: if `fail` is
`some e` the call raises `e`, otherwise it returns `v`. -/
def tryOp {α : Type} (fail : Option String) (v : α) : M α := fun s =>
  match fail with
  | some e => (Except.error e, s)
  | none => (Except.ok v, s)

/-- Record an effect (a committed row, a log line, a channel attempt). -/
def emit (e : Effect) : M Unit := fun s =>
  (Except.ok (), { s with effects := s.effects ++ [e] })

/-- Commit a new SentimentSnapshot: it becomes the newest element of the
patient history that later queries see. -/
def pushSnapshot (r : ℚ) : M Unit := fun s =>
  (Except.ok (), { s with snapshots := r :: s.snapshots })

/-- A Python `try: body except Exception as e: <log h e>` block: every
exception of the body is swallowed and replaced by one handler log line. -/
def runCatch (body : M Unit) (h : String → Effect) : M Unit := fun s =>
  match body s with
  | (Except.ok _, s1) => (Except.ok (), s1)
  | (Except.error e, s1) =>
      (Except.ok (), { s1 with effects := s1.effects ++ [h e] })

/-! ## Collaborator environment -/

/-- One run's behaviour of every external collaborator: database content
and, for each fallible call site, whether it raises (and with which
message).  Claims quantify over all environments. -/
structure Env where
  /-- db.session.get(User, uid) content -/
  users : Nat → Option UserRec
  /-- exception behaviour of the user lookup in the critical check -/
  getUserFail : Option String
  /-- exception behaviour of the 5-snapshot history query -/
  queryRecentFail : Option String
  /-- active DoctorPatient assignment of a patient -/
  assignment : Nat → Option AssignmentRec
  /-- exception behaviour of the assignment query -/
  assignmentFail : Option String
  /-- exception behaviour of the Alert insert/commit -/
  commitAlertFail : Option String
  /-- exception behaviour of the patient re-lookup in the dispatcher -/
  getPatientFail : Option String
  /-- exception behaviour of the recent-messages query in the dispatcher -/
  recentMsgsFail : Option String
  /-- elevenlabs_configured() -/
  voiceConfigured : Bool
  /-- exception raised at the voice call site (outside the adapter) -/
  voiceCallFail : Option String
  /-- adapter result: some data on success, none when the adapter caught a
  provider failure internally and returned None -/
  voiceCallRes : Option Nat
  /-- exception behaviour of send_twilio_message -/
  smsFail : Option String
  /-- exception behaviour of the chat pipeline main commit -/
  commitChatFail : Option String
  /-- exception behaviour of the voice pipeline snapshot commit -/
  commitSnapFail : Option String

/-- The snapshot history query (src/app.py lines 42-44): newest-first,
limit 5, over the committed store. -/
def queryRecent (env : Env) : M (List ℚ) := fun s =>
  match env.queryRecentFail with
  | some e => (Except.error e, s)
  | none => (Except.ok (s.snapshots.take 5), s)

/-! ## Escalation dispatcher (src/app.py lines 98-154) -/

/-- `alert.alert_type.value.replace(, ).title()` (src/app.py line 105). -/
def alertTypeText : AlertType → String
  | AlertType.suicidalIdeation => "Suicidal Ideation"
  | AlertType.selfHarm => "Self Harm"
  | AlertType.panic => "Panic"
  | AlertType.severeDepression => "Severe Depression"
  | AlertType.abuse => "Abuse"

/-- The fixed-template SMS body (src/app.py line 149). -/
def sms_summary (patientName typeText : String) : String :=
  "URGENT AURA ALERT: Patient " ++ patientName
    ++ " requires immediate attention. A " ++ typeText
    ++ " alert was triggered. A context-aware AI is calling you now. Please check your dashboard."

/-- Body of call_doctor_for_critical_alert (src/app.py lines 99-152),
before its catch-all handler.  The payload build (conversation snippet,
dynamic variables) is carried by the fallible message query; its string
content is not observable by any claim. -/
def callDoctorBody (env : Env) (alert : AlertRow) (doctor : UserRec) :
    M Unit :=
  match doctor.phone with
  | none =>
      emit (Effect.log LogLevel.error
        "Doctor has no phone number for emergency contact")
  | some ph =>
      bindM (tryOp env.getPatientFail (env.users alert.patient_id))
        (fun patient? =>
          match patient? with
          | none => throwM "AttributeError: NoneType has no attribute name"
          | some patient =>
              bindM (tryOp env.recentMsgsFail ())
                (fun _ =>
                  bindM
                    (if env.voiceConfigured then
                      bindM (tryOp env.voiceCallFail env.voiceCallRes)
                        (fun res =>
                          bindM (emit (Effect.voiceCallAttempt ph))
                            (fun _ =>
                              match res with
                              | some _ =>
                                  emit (Effect.log LogLevel.info
                                    "ElevenLabs call initiation response")
                              | none => pureM ()))
                    else pureM ())
                    (fun _ =>
                      bindM (tryOp env.smsFail ())
                        (fun _ =>
                          bindM (emit (Effect.smsSendAttempt ph
                            (sms_summary patient.name
                              (alertTypeText alert.alert_type))))
                            (fun _ =>
                              emit (Effect.log LogLevel.info
                                "Context-aware alert call initiated"))))))

/-- call_doctor_for_critical_alert (src/app.py lines 98-154): the body
under a catch-all that logs and returns. -/
def call_doctor_for_critical_alert (env : Env) (alert : AlertRow)
    (doctor : UserRec) : M Unit :=
  runCatch (callDoctorBody env alert doctor)
    (fun e => Effect.log LogLevel.error
      ("Failed to notify doctor of critical alert: " ++ e))

/-! ## Critical mood check (src/app.py lines 36-96) -/

/-- Body of check_critical_mood_and_alert (src/app.py lines 37-93), before
its catch-all handler. -/
def checkBody (env : Env) (user_id : Nat) (sentiment_rating : ℚ)
    (conversation_text : String) : M Unit :=
  bindM (tryOp env.getUserFail (env.users user_id))
    (fun user? =>
      match user? with
      | none => pureM ()
      | some user =>
          if user.user_type ≠ UserType.patient then pureM ()
          else
            bindM (queryRecent env)
              (fun recent =>
                let d := decideAlert sentiment_rating recent conversation_text
                if d.is_critical then
                  bindM (tryOp env.assignmentFail (env.assignment user_id))
                    (fun asg? =>
                      match asg? with
                      | some asg =>
                          let alert : AlertRow :=
                            { patient_id := user_id
                              severity := AlertSeverity.critical
                              alert_type :=
                                d.alert_type.getD AlertType.severeDepression
                              rationale := d.rationale
                              trigger_data :=
                                triggerData sentiment_rating
                                  conversation_text recent }
                          bindM (tryOp env.commitAlertFail ())
                            (fun _ =>
                              bindM (emit (Effect.addAlert alert))
                                (fun _ =>
                                  bindM (call_doctor_for_critical_alert env
                                    alert asg.doctor)
                                    (fun _ =>
                                      emit (Effect.log LogLevel.critical
                                        "Critical alert triggered for patient; doctor notified"))))
                      | none =>
                          emit (Effect.log LogLevel.warning
                            "Critical patient has no assigned doctor for emergency contact"))
                else pureM ()))

/-- check_critical_mood_and_alert (src/app.py lines 36-96): the body under
a catch-all that logs and returns. -/
def check_critical_mood_and_alert (env : Env) (user_id : Nat)
    (sentiment_rating : ℚ) (conversation_text : String) : M Unit :=
  runCatch (checkBody env user_id sentiment_rating conversation_text)
    (fun e => Effect.log LogLevel.error ("Error in critical mood check: " ++ e))

/-! ## Chat pipeline (src/app.py lines 275-399, api_chat), from the point
where the AI reply has been generated and the session user resolved -/

inductive ChatOutcome
  | ok (reply : String) (sentiment_rating : ℚ)
  | authErr
  | serverErr
deriving DecidableEq, Repr

/-- src/app.py lines 343-350: the guarded scorer call.  On scorer failure
the pipeline logs a warning and falls back to rating 3.0, confidence 0.5. -/
def scoreWithFallback (scorer : Except String (ℚ × ℚ)) : M (ℚ × ℚ) :=
  fun s =>
    match scorer with
    | Except.ok rc => (Except.ok rc, s)
    | Except.error e =>
        (Except.ok (3, 1/2),
         { s with effects :=
            s.effects ++ [Effect.log LogLevel.warning
              ("Sentiment analysis failed: " ++ e)] })

/-- src/app.py lines 339-395 (body inside the route try-block): resolve the
session user, score the utterance with fallback, store conversation,
messages and sentiment snapshot, commit, run the critical check, and
return the JSON payload. -/
def apiChatBody (env : Env) (user? : Option UserRec)
    (scorer : Except String (ℚ × ℚ)) (message reply : String) :
    M ChatOutcome :=
  match user? with
  | none => pureM ChatOutcome.authErr
  | some user =>
      bindM (scoreWithFallback scorer)
        (fun rc =>
          bindM (emit Effect.addConversation)
            (fun _ =>
              bindM (emit (Effect.addMessage "patient" message))
                (fun _ =>
                  bindM (emit (Effect.addMessage "ai" reply))
                    (fun _ =>
                      bindM (emit (Effect.addSnapshot rc.1 rc.2))
                        (fun _ =>
                          bindM (tryOp env.commitChatFail ())
                            (fun _ =>
                              bindM (pushSnapshot rc.1)
                                (fun _ =>
                                  bindM (check_critical_mood_and_alert env
                                    user.id rc.1 message)
                                    (fun _ =>
                                      pureM (ChatOutcome.ok reply rc.1)))))))))

/-- api_chat (src/app.py lines 275-399): the body under the route-level
catch-all, which answers with a 500 error payload. -/
def api_chat (env : Env) (user? : Option UserRec)
    (scorer : Except String (ℚ × ℚ)) (message reply : String) :
    M ChatOutcome := fun s =>
  match apiChatBody env user? scorer message reply s with
  | (Except.ok o, s1) => (Except.ok o, s1)
  | (Except.error e, s1) =>
      (Except.ok ChatOutcome.serverErr,
       { s1 with effects :=
          s1.effects ++ [Effect.log LogLevel.error ("Chat error: " ++ e)] })

/-! ## Streaming chat pipeline (src/app.py lines 409-471,
api_chat_stream), the generator tail after the reply words have been
streamed -/

inductive StreamOutcome
  | complete
  | noUser
  | errorEvent
deriving DecidableEq, Repr

/-- src/app.py lines 436-465: user lookup, then an UNGUARDED scorer call,
then storage, commit, critical check and the completion event. -/
def streamTailBody (env : Env) (user_id : Nat)
    (scorer : Except String (ℚ × ℚ)) (message reply : String) :
    M StreamOutcome :=
  bindM (tryOp env.getUserFail (env.users user_id))
    (fun user? =>
      match user? with
      | none =>
          bindM (emit (Effect.log LogLevel.error
            "User not found in database for streaming context"))
            (fun _ => pureM StreamOutcome.noUser)
      | some user =>
          bindM (liftE scorer)
            (fun rc =>
              bindM (emit Effect.addConversation)
                (fun _ =>
                  bindM (emit (Effect.addMessage "patient" message))
                    (fun _ =>
                      bindM (emit (Effect.addMessage "ai" reply))
                        (fun _ =>
                          bindM (emit (Effect.addSnapshot rc.1 rc.2))
                            (fun _ =>
                              bindM (tryOp env.commitChatFail ())
                                (fun _ =>
                                  bindM (pushSnapshot rc.1)
                                    (fun _ =>
                                      bindM
                                        (check_critical_mood_and_alert env
                                          user.id rc.1 message)
                                        (fun _ =>
                                          pureM StreamOutcome.complete)))))))))

/-- api_chat_stream generator tail (src/app.py lines 425-469): the body
under the generator catch-all, which logs and yields an error event. -/
def api_chat_stream_tail (env : Env) (user_id : Nat)
    (scorer : Except String (ℚ × ℚ)) (message reply : String) :
    M StreamOutcome := fun s =>
  match streamTailBody env user_id scorer message reply s with
  | (Except.ok o, s1) => (Except.ok o, s1)
  | (Except.error e, s1) =>
      (Except.ok StreamOutcome.errorEvent,
       { s1 with effects :=
          s1.effects ++ [Effect.log LogLevel.error ("Streaming error: " ++ e)] })

/-! ## Voice pipeline (src/app.py lines 564-663, voice_process), the tail
after the AI voice reply has been generated -/

inductive VoiceOutcome
  | twiml
  | apology
deriving DecidableEq, Repr

/-- src/app.py lines 624-636: the sentiment try-block of voice_process.
The scorer is consulted first; then the snapshot is built from
user_message.id, which raises a NameError when no user row was found (the
user_message local was never bound).  Any exception is logged. -/
def voiceSentimentBlock (env : Env) (userPresent : Bool)
    (scorer : Except String (ℚ × ℚ)) : M Unit :=
  runCatch
    (bindM (liftE scorer)
      (fun rc =>
        if userPresent then
          bindM (emit (Effect.addSnapshot rc.1 rc.2))
            (fun _ =>
              bindM (tryOp env.commitSnapFail ())
                (fun _ => pushSnapshot rc.1))
        else throwM "NameError: user_message is not defined"))
    (fun e => Effect.log LogLevel.error
      ("Failed to analyze sentiment for voice: " ++ e))

/-- src/app.py lines 597-656 (inside the route try-block): store the voice
exchange when the user exists, run the sentiment block, and answer with
TwiML.  No critical check appears in this pipeline. -/
def voiceTailBody (env : Env) (user_id : Nat)
    (scorer : Except String (ℚ × ℚ)) (user_speech reply : String) :
    M VoiceOutcome :=
  bindM (tryOp env.getUserFail (env.users user_id))
    (fun user? =>
      bindM
        (match user? with
        | some _ =>
            bindM (emit Effect.addConversation)
              (fun _ =>
                bindM (emit (Effect.addMessage "patient" user_speech))
                  (fun _ =>
                    bindM (emit (Effect.addMessage "ai" reply))
                      (fun _ => tryOp env.commitChatFail ())))
        | none => pureM ())
        (fun _ =>
          bindM (voiceSentimentBlock env user?.isSome scorer)
            (fun _ => pureM VoiceOutcome.twiml)))

/-- voice_process tail (src/app.py lines 564-663): the body under the
route-level catch-all, which answers with an apology TwiML. -/
def voice_process_tail (env : Env) (user_id : Nat)
    (scorer : Except String (ℚ × ℚ)) (user_speech reply : String) :
    M VoiceOutcome := fun s =>
  match voiceTailBody env user_id scorer user_speech reply s with
  | (Except.ok o, s1) => (Except.ok o, s1)
  | (Except.error e, s1) =>
      (Except.ok VoiceOutcome.apology,
       { s1 with effects :=
          s1.effects ++ [Effect.log LogLevel.error ("Voice processing error: " ++ e)] })

/-! ## Trace predicates -/

def isAddAlert : Effect → Bool
  | Effect.addAlert _ => true
  | _ => false

def isNotifLog : Effect → Bool
  | Effect.addNotifLog _ _ => true
  | _ => false

def isAddSnapshot : Effect → Bool
  | Effect.addSnapshot _ _ => true
  | _ => false

def isAddMessage : Effect → Bool
  | Effect.addMessage _ _ => true
  | _ => false

def isVoiceAttempt : Effect → Bool
  | Effect.voiceCallAttempt _ => true
  | _ => false

def isSmsAttempt : Effect → Bool
  | Effect.smsSendAttempt _ _ => true
  | _ => false

/-- Is this trigger_data value a set of matched keywords? -/
def isKeywordSetVal : JVal → Bool
  | JVal.strSet _ => true
  | _ => false

/-- Number of effects in a trace satisfying a predicate. -/
def countE (p : Effect → Bool) (es : List Effect) : Nat :=
  (es.filter p).length

/-- The chat pipeline store state right after its main commit (everything
persisted before the critical check runs). -/
def chatPre (r c : ℚ) (message reply : String) (s : DBState) : DBState :=
  { effects := s.effects ++
      [Effect.addConversation, Effect.addMessage "patient" message,
       Effect.addMessage "ai" reply, Effect.addSnapshot r c]
    snapshots := r :: s.snapshots }

/-- The unique Alert row the check can commit for given inputs and store
(src/app.py lines 75-85 with the recent list coming from the line 42-44
query). -/
def alertOf (user_id : Nat) (r : ℚ) (t : String) (s : DBState) : AlertRow :=
  { patient_id := user_id
    severity := AlertSeverity.critical
    alert_type := (decideAlert r (s.snapshots.take 5) t).alert_type.getD
      AlertType.severeDepression
    rationale := (decideAlert r (s.snapshots.take 5) t).rationale
    trigger_data := triggerData r t (s.snapshots.take 5) }

/-! ## Concrete fixtures for witnesses and counterexamples -/

def patientRec : UserRec :=
  { id := 1, name := "Pat", user_type := UserType.patient, phone := some "15550001111" }

def doctorRec : UserRec :=
  { id := 2, name := "Doc", user_type := UserType.doctor, phone := some "15550002222" }

/-- A fully healthy environment in which the voice provider fails (the
adapter catches the provider error and returns None) while SMS succeeds. -/
def env0 : Env :=
  { users := fun i =>
      if i = 1 then some patientRec
      else if i = 2 then some doctorRec
      else none
    getUserFail := none
    queryRecentFail := none
    assignment := fun i =>
      if i = 1 then some { doctor_id := 2, doctor := doctorRec } else none
    assignmentFail := none
    commitAlertFail := none
    getPatientFail := none
    recentMsgsFail := none
    voiceConfigured := true
    voiceCallFail := none
    voiceCallRes := none
    smsFail := none
    commitChatFail := none
    commitSnapFail := none }

/-- env0 with no active doctor assignment for anyone. -/
def envNoAsg : Env := { env0 with assignment := fun _ => none }

/-- The Alert row the code commits for the utterance of claim C5. -/
def alertC5 : AlertRow :=
  { patient_id := 1
    severity := AlertSeverity.critical
    alert_type := AlertType.suicidalIdeation
    rationale := rationale_crisis
    trigger_data := triggerData 3 "I just want to give up" [] }

/-- Trace of the critical check in the C2 scenario: floor-qualifying
rating, active assignment, voice provider failure, successful SMS. -/
def esC2 : List Effect :=
  (check_critical_mood_and_alert env0 1 1 "hello" ⟨[], []⟩).2.effects

/-- Trace of the critical check in the C5 scenario. -/
def esC5 : List Effect :=
  (check_critical_mood_and_alert env0 1 3 "I just want to give up" ⟨[], []⟩).2.effects

/-- Trace of the streaming pipeline when the scorer fails on a crisis
utterance. -/
def esC7stream : List Effect :=
  (api_chat_stream_tail env0 1 (Except.error "ScoringUnavailable") "no point"
    "reply" ⟨[], []⟩).2.effects

/-! ## Helper lemmas -/

set_option maxHeartbeats 1000000

theorem callDoctor_tame (env : Env) (alert : AlertRow) (doctor : UserRec)
    (s : DBState) :
    (call_doctor_for_critical_alert env alert doctor s).1 = Except.ok () ∧
    (call_doctor_for_critical_alert env alert doctor s).2.snapshots = s.snapshots ∧
    countE isAddAlert (call_doctor_for_critical_alert env alert doctor s).2.effects
      = countE isAddAlert s.effects ∧
    countE isNotifLog (call_doctor_for_critical_alert env alert doctor s).2.effects
      = countE isNotifLog s.effects ∧
    ∀ a, Effect.addAlert a ∈ (call_doctor_for_critical_alert env alert doctor s).2.effects
      ↔ Effect.addAlert a ∈ s.effects := by
  unfold call_doctor_for_critical_alert runCatch callDoctorBody
  cases h1 : doctor.phone
  case none =>
    simp [bindM, tryOp, emit, pureM, throwM, countE, List.filter_append,
      isAddAlert, isNotifLog]
  case some ph =>
    cases h2 : env.getPatientFail
    case some e =>
      simp [bindM, tryOp, emit, pureM, throwM, countE, List.filter_append,
        isAddAlert, isNotifLog]
    case none =>
      cases h3 : env.users alert.patient_id
      case none =>
        simp [bindM, tryOp, emit, pureM, throwM, countE, List.filter_append,
          isAddAlert, isNotifLog]
      case some patient =>
        cases h4 : env.recentMsgsFail
        case some e =>
          simp [bindM, tryOp, emit, pureM, throwM, countE, List.filter_append,
            isAddAlert, isNotifLog]
        case none =>
          cases h5 : env.voiceConfigured <;>
          cases h6 : env.voiceCallFail <;>
          cases h7 : env.voiceCallRes <;>
          cases h8 : env.smsFail <;>
          simp [bindM, tryOp, emit, pureM, throwM, countE, List.filter_append,
            isAddAlert, isNotifLog, List.append_assoc]

end Aura

namespace Aura

/-- The unique Alert row the check can commit for given inputs and store. -/

theorem check_spec (env : Env) (uid : Nat) (r : ℚ) (t : String) (s : DBState) :
    (check_critical_mood_and_alert env uid r t s).1 = Except.ok () ∧
    (check_critical_mood_and_alert env uid r t s).2.snapshots = s.snapshots ∧
    countE isAddAlert (check_critical_mood_and_alert env uid r t s).2.effects
      ≤ countE isAddAlert s.effects + 1 ∧
    countE isNotifLog (check_critical_mood_and_alert env uid r t s).2.effects
      = countE isNotifLog s.effects ∧
    ∀ a, Effect.addAlert a ∈ (check_critical_mood_and_alert env uid r t s).2.effects →
      Effect.addAlert a ∈ s.effects ∨ a = alertOf uid r t s := by
  unfold check_critical_mood_and_alert runCatch checkBody
  cases h1 : env.getUserFail
  · cases h2 : env.users uid
    · simp [bindM, tryOp, emit, pureM, throwM, countE, List.filter_append,
        isAddAlert, isNotifLog]
      exact fun a ha => Or.inl ha
    · rename_i user
      by_cases h3 : user.user_type = UserType.patient
      · cases h4 : env.queryRecentFail
        · cases h5 : (decideAlert r (s.snapshots.take 5) t).is_critical
          · simp [h3, h4, h5, bindM, tryOp, emit, pureM, throwM, queryRecent, countE,
              List.filter_append, isAddAlert, isNotifLog]
            exact fun a ha => Or.inl ha
          · cases h6 : env.assignmentFail
            · cases h7 : env.assignment uid
              · simp [h3, h4, h5, bindM, tryOp, emit, pureM, throwM, queryRecent,
                  countE, List.filter_append, isAddAlert, isNotifLog]
                exact fun a ha => Or.inl ha
              · rename_i asg
                cases h8 : env.commitAlertFail
                · have hcd := callDoctor_tame env (alertOf uid r t s) asg.doctor
                    { s with effects := s.effects ++ [Effect.addAlert (alertOf uid r t s)] }
                  rcases hq : call_doctor_for_critical_alert env (alertOf uid r t s)
                    asg.doctor
                    { s with effects := s.effects ++ [Effect.addAlert (alertOf uid r t s)] }
                    with ⟨cfst, cs⟩
                  rw [hq] at hcd
                  obtain ⟨hf, hsnap, hca, hcn, hmem⟩ := hcd
                  simp only at hf hsnap hca hcn hmem
                  subst hf
                  simp only [h3, h4, h5, bindM, tryOp, emit, pureM, throwM, queryRecent,
                    alertOf, ite_true, ne_eq, not_true_eq_false, if_false] at hq ⊢
                  rw [hq]
                  simp [emit, countE, List.filter_append, isAddAlert, isNotifLog,
                    alertOf] at hca hcn hmem ⊢
                  refine ⟨hsnap, ?_, ?_, ?_⟩
                  · omega
                  · omega
                  · intro a ha
                    rcases (hmem a).1 ha with h | h
                    · exact Or.inl h
                    · exact Or.inr h
                · simp [h3, h4, h5, h8, bindM, tryOp, emit, pureM, throwM, queryRecent,
                    countE, List.filter_append, isAddAlert, isNotifLog]
                  exact fun a ha => Or.inl ha
            · simp [h3, h4, h5, h6, bindM, tryOp, emit, pureM, throwM, queryRecent,
                countE, List.filter_append, isAddAlert, isNotifLog]
              exact fun a ha => Or.inl ha
        · simp [h3, h4, bindM, tryOp, emit, pureM, throwM, queryRecent, countE,
            List.filter_append, isAddAlert, isNotifLog]
          exact fun a ha => Or.inl ha
      · simp [h3, bindM, tryOp, emit, pureM, throwM, countE, List.filter_append,
          isAddAlert, isNotifLog]
        exact fun a ha => Or.inl ha
  · simp [h1, bindM, tryOp, emit, pureM, throwM, countE, List.filter_append,
      isAddAlert, isNotifLog]
    exact fun a ha => Or.inl ha

theorem callDoctor_mono (env : Env) (alert : AlertRow) (doctor : UserRec)
    (s : DBState) :
    ∀ x ∈ s.effects, x ∈ (call_doctor_for_critical_alert env alert doctor s).2.effects := by
  unfold call_doctor_for_critical_alert runCatch callDoctorBody
  cases h1 : doctor.phone
  · simp [bindM, tryOp, emit, pureM, throwM] <;> tauto
  · cases h2 : env.getPatientFail
    · cases h3 : env.users alert.patient_id
      · simp [bindM, tryOp, emit, pureM, throwM] <;> tauto
      · cases h4 : env.recentMsgsFail
        · cases h5 : env.voiceConfigured <;>
          cases h6 : env.voiceCallFail <;>
          cases h7 : env.voiceCallRes <;>
          cases h8 : env.smsFail <;>
          simp [bindM, tryOp, emit, pureM, throwM, List.append_assoc] <;>
          tauto
        · simp [bindM, tryOp, emit, pureM, throwM] <;> tauto
    · simp [bindM, tryOp, emit, pureM, throwM] <;> tauto

theorem check_mono (env : Env) (uid : Nat) (r : ℚ) (t : String) (s : DBState) :
    ∀ x ∈ s.effects, x ∈ (check_critical_mood_and_alert env uid r t s).2.effects := by
  unfold check_critical_mood_and_alert runCatch checkBody
  cases h1 : env.getUserFail
  · cases h2 : env.users uid
    · simp [bindM, tryOp, emit, pureM, throwM] <;> tauto
    · rename_i user
      by_cases h3 : user.user_type = UserType.patient
      · cases h4 : env.queryRecentFail
        · cases h5 : (decideAlert r (s.snapshots.take 5) t).is_critical
          · simp [h3, h4, h5, bindM, tryOp, emit, pureM, throwM, queryRecent] <;> tauto
          · cases h6 : env.assignmentFail
            · cases h7 : env.assignment uid
              · simp [h3, h4, h5, bindM, tryOp, emit, pureM, throwM, queryRecent] <;> tauto
              · rename_i asg
                cases h8 : env.commitAlertFail
                · have hm := callDoctor_mono env (alertOf uid r t s) asg.doctor
                    { s with effects := s.effects ++ [Effect.addAlert (alertOf uid r t s)] }
                  rcases hq : call_doctor_for_critical_alert env (alertOf uid r t s)
                    asg.doctor
                    { s with effects := s.effects ++ [Effect.addAlert (alertOf uid r t s)] }
                    with ⟨cfst, cs⟩
                  rw [hq] at hm
                  simp only at hm
                  have hf := (callDoctor_tame env (alertOf uid r t s) asg.doctor
                    { s with effects := s.effects ++ [Effect.addAlert (alertOf uid r t s)] }).1
                  rw [hq] at hf
                  simp only at hf
                  subst hf
                  simp only [h3, h4, h5, bindM, tryOp, emit, pureM, throwM, queryRecent,
                    alertOf, ite_true, ne_eq, not_true_eq_false, if_false] at hq ⊢
                  rw [hq]
                  simp [emit]
                  intro x hx
                  have : x ∈ cs.effects := by
                    apply hm
                    simp [hx]
                  simp [this]
                · simp [h3, h4, h5, h8, bindM, tryOp, emit, pureM, throwM, queryRecent] <;> tauto
            · simp [h3, h4, h5, h6, bindM, tryOp, emit, pureM, throwM, queryRecent] <;> tauto
        · simp [h3, h4, bindM, tryOp, emit, pureM, throwM, queryRecent] <;> tauto
      · simp [h3, bindM, tryOp, emit, pureM, throwM] <;> tauto
  · simp [h1, bindM, tryOp, emit, pureM, throwM] <;> tauto


theorem apiChat_comp (env : Env) (u : UserRec) (r c : ℚ) (msg reply : String)
    (s : DBState) (hcommit : env.commitChatFail = none) :
    api_chat env (some u) (Except.ok (r, c)) msg reply s =
      (Except.ok (ChatOutcome.ok reply r),
       (check_critical_mood_and_alert env u.id r msg
         (chatPre r c msg reply s)).2) := by
  have hpre : chatPre r c msg reply s =
      ⟨s.effects ++ [Effect.addConversation] ++ [Effect.addMessage "patient" msg]
        ++ [Effect.addMessage "ai" reply] ++ [Effect.addSnapshot r c],
       r :: s.snapshots⟩ := by
    simp [chatPre, List.append_assoc]
  have hf := (check_spec env u.id r msg (chatPre r c msg reply s)).1
  rcases hq : check_critical_mood_and_alert env u.id r msg (chatPre r c msg reply s)
    with ⟨cfst, cs⟩
  rw [hq] at hf
  simp only at hf
  subst hf
  rw [hpre] at hq
  unfold api_chat apiChatBody
  simp only [bindM, scoreWithFallback, emit, tryOp, hcommit, pushSnapshot, pureM]
  rw [hq]

theorem stream_comp (env : Env) (uid : Nat) (u : UserRec) (r c : ℚ)
    (msg reply : String) (s : DBState)
    (hgf : env.getUserFail = none) (hu : env.users uid = some u)
    (hcommit : env.commitChatFail = none) :
    api_chat_stream_tail env uid (Except.ok (r, c)) msg reply s =
      (Except.ok StreamOutcome.complete,
       (check_critical_mood_and_alert env u.id r msg
         (chatPre r c msg reply s)).2) := by
  have hpre : chatPre r c msg reply s =
      ⟨s.effects ++ [Effect.addConversation] ++ [Effect.addMessage "patient" msg]
        ++ [Effect.addMessage "ai" reply] ++ [Effect.addSnapshot r c],
       r :: s.snapshots⟩ := by
    simp [chatPre, List.append_assoc]
  have hf := (check_spec env u.id r msg (chatPre r c msg reply s)).1
  rcases hq : check_critical_mood_and_alert env u.id r msg (chatPre r c msg reply s)
    with ⟨cfst, cs⟩
  rw [hq] at hf
  simp only at hf
  subst hf
  rw [hpre] at hq
  unfold api_chat_stream_tail streamTailBody
  simp only [bindM, liftE, emit, tryOp, hgf, hu, hcommit, pushSnapshot, pureM]
  rw [hq]

/-! ## Claim theorems -/

set_option maxHeartbeats 1000000
set_option maxRecDepth 8000

/-- Claim C4: the sentiment trend evaluation triggers exactly on the
absolute floor (currentRating at most 1.5, ties triggering) or the rapid
decline (at least 3 history entries, mean of the 3 newest at most 2.0 and
currentRating strictly below that mean minus 1.0); with fewer than 3
entries only the floor can trigger, and a tie at exactly mean minus 1.0
does not fire the decline rule (the floor rationale survives). -/
theorem C4_trend_trigger_conditions (r : ℚ) (recent : List ℚ) :
    ((trendDecision r recent).is_critical = true ↔
      (r ≤ 3/2 ∨ (3 ≤ recent.length ∧ (recent.take 3).sum / 3 ≤ 2 ∧
        r < (recent.take 3).sum / 3 - 1))) ∧
    (recent.length < 3 →
      ((trendDecision r recent).is_critical = true ↔ r ≤ 3/2)) ∧
    (trendDecision (3/2) recent).is_critical = true ∧
    (3 ≤ recent.length → (recent.take 3).sum / 3 ≤ 2 →
      r = (recent.take 3).sum / 3 - 1 →
      trendDecision r recent =
        ⟨true, some AlertType.severeDepression, rationale_low r⟩) := by
  have hMain : (trendDecision r recent).is_critical = true ↔
      (r ≤ 3/2 ∨ (3 ≤ recent.length ∧ (recent.take 3).sum / 3 ≤ 2 ∧
        r < (recent.take 3).sum / 3 - 1)) := by
    by_cases hF : r ≤ 3/2 <;> by_cases hL : 3 ≤ recent.length <;>
    by_cases hC : (recent.take 3).sum / 3 ≤ 2 ∧ r < (recent.take 3).sum / 3 - 1 <;>
    simp [trendDecision, hF, hL, hC]
  refine ⟨hMain, ?_, ?_, ?_⟩
  · intro hlen
    rw [hMain]
    constructor
    · rintro (h | h)
      · exact h
      · omega
    · exact fun h => Or.inl h
  · unfold trendDecision
    split_ifs <;> simp_all
  · intro hlen havg heq
    have h1 : r ≤ 3/2 := by rw [heq]; linarith
    have h3 : ¬ ((recent.take 3).sum / 3 ≤ 2 ∧ r < (recent.take 3).sum / 3 - 1) := by
      rw [heq]
      intro hc
      exact absurd hc.2 (lt_irrefl _)
    unfold trendDecision
    split_ifs <;> simp_all

/-- Witness for C4 at the spec example history [2, 1.8, 2.2] with current
rating 0.5, a short history, and an exact decline tie. -/
theorem C4_witness :
    ((trendDecision (1/2 : ℚ) [2, 9/5, 11/5]).is_critical = true) ∧
    (([(2:ℚ), 2].length < 3) ∧
      ((trendDecision (9/5 : ℚ) [2, 2]).is_critical = true ↔ (9/5:ℚ) ≤ 3/2)) ∧
    (trendDecision 1 [2, 2, 2] =
      ⟨true, some AlertType.severeDepression, rationale_low 1⟩) := by
  refine ⟨?_, ⟨by norm_num, ?_⟩, ?_⟩
  · exact (C4_trend_trigger_conditions (1/2) [2, 9/5, 11/5]).1.mpr
      (Or.inr ⟨by norm_num, by norm_num, by norm_num⟩)
  · exact (C4_trend_trigger_conditions (9/5) [2, 2]).2.1 (by norm_num)
  · exact (C4_trend_trigger_conditions 1 [2, 2, 2]).2.2.2
      (by norm_num) (by norm_num) (by norm_num)

/-- Claim C3: one invocation of the check commits at most one Alert row
however many trigger conditions fire, crisis language forces type
SuicidalIdeation with the fixed crisis rationale, and a purely trend-based
verdict is SevereDepression carrying the trend rationale. -/
theorem C3_single_alert_and_crisis_precedence (env : Env) (uid : Nat)
    (r : ℚ) (t : String) (s : DBState) (recent : List ℚ) :
    countE isAddAlert (check_critical_mood_and_alert env uid r t s).2.effects
      ≤ countE isAddAlert s.effects + 1 ∧
    (crisisHit t = true →
      decideAlert r recent t =
        ⟨true, some AlertType.suicidalIdeation, rationale_crisis⟩) ∧
    (crisisHit t = false → (decideAlert r recent t).is_critical = true →
      decideAlert r recent t = trendDecision r recent ∧
      (decideAlert r recent t).alert_type = some AlertType.severeDepression) := by
  refine ⟨(check_spec env uid r t s).2.2.1, ?_, ?_⟩
  · intro h
    simp [decideAlert, h]
  · intro h hc
    have he : decideAlert r recent t = trendDecision r recent := by
      simp [decideAlert, h]
    refine ⟨he, ?_⟩
    rw [he] at hc ⊢
    unfold trendDecision at hc ⊢
    split_ifs at hc ⊢ <;> simp_all

/-- Witness for C3: a crisis utterance, a floor-only verdict, and a
concrete bound on the committed alerts of one run. -/
theorem C3_witness :
    (crisisHit "there is no point" = true ∧
      decideAlert 3 [] "there is no point" =
        ⟨true, some AlertType.suicidalIdeation, rationale_crisis⟩) ∧
    (crisisHit "feeling ok" = false ∧
      (decideAlert 1 [] "feeling ok").is_critical = true ∧
      decideAlert 1 [] "feeling ok" = trendDecision 1 [] ∧
      (decideAlert 1 [] "feeling ok").alert_type =
        some AlertType.severeDepression) ∧
    countE isAddAlert
      (check_critical_mood_and_alert env0 1 1 "hello" ⟨[], []⟩).2.effects
      ≤ countE isAddAlert (DBState.mk [] []).effects + 1 := by
  have hok : crisisHit "feeling ok" = false := by decide
  have hcrit : (decideAlert 1 [] "feeling ok").is_critical = true := by
    norm_num [decideAlert, trendDecision, hok]
  refine ⟨⟨by decide, ?_⟩, ⟨hok, hcrit, ?_⟩, ?_⟩
  · exact (C3_single_alert_and_crisis_precedence env0 1 3 "there is no point"
      ⟨[], []⟩ []).2.1 (by decide)
  · exact (C3_single_alert_and_crisis_precedence env0 1 1 "feeling ok"
      ⟨[], []⟩ []).2.2 hok hcrit
  · exact (C3_single_alert_and_crisis_precedence env0 1 1 "hello"
      ⟨[], []⟩ []).1

/-- Counterexample to C5 as stated: for the claim utterance the committed
Alert's evidence snapshot holds exactly the keys sentiment_rating,
conversation_snippet and recent_ratings, and none of its values is a set
of matched keywords, so no matchedKeywords set is stored. -/
theorem C5_counterexample :
    esC5.filter isAddAlert = [Effect.addAlert alertC5] ∧
    alertC5.alert_type = AlertType.suicidalIdeation ∧
    alertC5.trigger_data.map Prod.fst =
      ["sentiment_rating", "conversation_snippet", "recent_ratings"] ∧
    alertC5.trigger_data.all (fun kv => !(isKeywordSetVal kv.2)) = true := by
  have hck : crisisHit "I just want to give up" = true := by decide
  refine ⟨?_, by decide, by decide, by decide⟩
  norm_num [esC5, check_critical_mood_and_alert, runCatch, checkBody, bindM, tryOp,
    emit, pureM, throwM, queryRecent, decideAlert, trendDecision, hck, env0,
    patientRec, doctorRec, call_doctor_for_critical_alert, callDoctorBody,
    alertC5, triggerData, alertTypeText, sms_summary, isAddAlert]

/-- Claim C5 as amended: the detector is a case-insensitive substring scan
of the fixed lexicon and any match yields a SuicidalIdeation verdict, but
the code only tests for existence of a match: matched keywords are not
collected and the evidence snapshot carries only the rating, a 200-char
snippet and the recent ratings, never a keyword set. -/
theorem C5_crisis_detection_without_keyword_collection (t : String) (r : ℚ)
    (recent : List ℚ) :
    (crisisHit t = true ↔
      ∃ kw ∈ crisis_keywords, strContains (lowerStr t) kw = true) ∧
    decideAlert 3 [] "I just want to give up" =
      ⟨true, some AlertType.suicidalIdeation, rationale_crisis⟩ ∧
    (triggerData r t recent).map Prod.fst =
      ["sentiment_rating", "conversation_snippet", "recent_ratings"] ∧
    (triggerData r t recent).all (fun kv => !(isKeywordSetVal kv.2)) = true := by
  have hck : crisisHit "I just want to give up" = true := by decide
  refine ⟨?_, by simp [decideAlert, hck], by simp [triggerData],
    by simp [triggerData, isKeywordSetVal]⟩
  simp [crisisHit, List.any_eq_true]

/-- Counterexample to C2 as stated: in the claimed scenario (qualifying
verdict, active assignment, voice provider failure, successful SMS) the
run commits exactly one Alert, attempts both channels, and writes ZERO
NotificationLog rows, not one Failed voice row and one Sent SMS row. -/
theorem C2_counterexample :
    countE isAddAlert esC2 = 1 ∧
    countE isVoiceAttempt esC2 = 1 ∧
    countE isSmsAttempt esC2 = 1 ∧
    countE isNotifLog esC2 = 0 := by
  have hck : crisisHit "hello" = false := by decide
  norm_num [esC2, check_critical_mood_and_alert, runCatch, checkBody, bindM, tryOp,
    emit, pureM, throwM, queryRecent, decideAlert, trendDecision, hck, env0,
    patientRec, doctorRec, call_doctor_for_critical_alert, callDoctorBody,
    triggerData, alertTypeText, sms_summary, countE, isAddAlert, isNotifLog,
    isVoiceAttempt, isSmsAttempt]

/-- Claim C2 as amended: for a qualifying verdict with an active
assignment, a voice provider failure handled inside the adapter, and a
successful SMS send, the dispatcher commits exactly one Alert row, still
attempts the voice call and, independently, the SMS; no NotificationLog
row is ever written for either channel. -/
theorem C2_one_alert_independent_channels_no_notification_rows
    (env : Env) (uid : Nat) (u : UserRec) (asg : AssignmentRec) (ph : String)
    (r : ℚ) (t : String) (s : DBState)
    (hgf : env.getUserFail = none) (hu : env.users uid = some u)
    (hp : u.user_type = UserType.patient) (hq : env.queryRecentFail = none)
    (hcrit : (decideAlert r (s.snapshots.take 5) t).is_critical = true)
    (haf : env.assignmentFail = none) (ha : env.assignment uid = some asg)
    (hcf : env.commitAlertFail = none)
    (hph : asg.doctor.phone = some ph)
    (hgp : env.getPatientFail = none) (hrm : env.recentMsgsFail = none)
    (hvc : env.voiceConfigured = true) (hvf : env.voiceCallFail = none)
    (hvr : env.voiceCallRes = none) (hsf : env.smsFail = none) :
    countE isAddAlert (check_critical_mood_and_alert env uid r t s).2.effects
      = countE isAddAlert s.effects + 1 ∧
    countE isVoiceAttempt (check_critical_mood_and_alert env uid r t s).2.effects
      = countE isVoiceAttempt s.effects + 1 ∧
    countE isSmsAttempt (check_critical_mood_and_alert env uid r t s).2.effects
      = countE isSmsAttempt s.effects + 1 ∧
    countE isNotifLog (check_critical_mood_and_alert env uid r t s).2.effects
      = countE isNotifLog s.effects := by
  unfold check_critical_mood_and_alert runCatch checkBody
    call_doctor_for_critical_alert callDoctorBody
  simp [runCatch, bindM, tryOp, emit, pureM, throwM, queryRecent, hgf, hu, hp, hq, hcrit,
    haf, ha, hcf, hph, hgp, hrm, hvc, hvf, hvr, hsf, countE, List.filter_append,
    isAddAlert, isNotifLog, isVoiceAttempt, isSmsAttempt, List.append_assoc]

/-- Witness for C2 at the concrete environment env0. -/
theorem C2_witness :
    countE isAddAlert
      (check_critical_mood_and_alert env0 1 1 "hello" ⟨[], []⟩).2.effects = 1 ∧
    countE isVoiceAttempt
      (check_critical_mood_and_alert env0 1 1 "hello" ⟨[], []⟩).2.effects = 1 ∧
    countE isSmsAttempt
      (check_critical_mood_and_alert env0 1 1 "hello" ⟨[], []⟩).2.effects = 1 ∧
    countE isNotifLog
      (check_critical_mood_and_alert env0 1 1 "hello" ⟨[], []⟩).2.effects = 0 := by
  have hck : crisisHit "hello" = false := by decide
  have hcrit : (decideAlert 1 ((DBState.mk [] []).snapshots.take 5) "hello").is_critical
      = true := by
    norm_num [decideAlert, trendDecision, hck]
  exact C2_one_alert_independent_channels_no_notification_rows env0 1 patientRec
    ⟨2, doctorRec⟩ "15550002222" 1 "hello" ⟨[], []⟩ rfl rfl rfl rfl hcrit rfl rfl
    rfl rfl rfl rfl rfl rfl rfl rfl

/-- Claim C6: a qualifying critical verdict with no active doctor
assignment commits no Alert, attempts no notification, and leaves exactly
one loud warning log entry; the check still returns normally. -/
theorem C6_missing_assignment_logged_no_alert (env : Env) (uid : Nat)
    (u : UserRec) (r : ℚ) (t : String) (s : DBState)
    (hgf : env.getUserFail = none) (hu : env.users uid = some u)
    (hp : u.user_type = UserType.patient) (hq : env.queryRecentFail = none)
    (hcrit : (decideAlert r (s.snapshots.take 5) t).is_critical = true)
    (haf : env.assignmentFail = none) (ha : env.assignment uid = none) :
    check_critical_mood_and_alert env uid r t s =
      (Except.ok (),
       { s with effects := s.effects ++
          [Effect.log LogLevel.warning
            "Critical patient has no assigned doctor for emergency contact"] }) := by
  unfold check_critical_mood_and_alert runCatch checkBody
  simp [bindM, tryOp, emit, pureM, queryRecent, hgf, hu, hp, hq, hcrit, haf, ha]

/-- Witness for C6 at the concrete environment envNoAsg. -/
theorem C6_witness :
    check_critical_mood_and_alert envNoAsg 1 1 "hello" ⟨[], []⟩ =
      (Except.ok (),
       ⟨[Effect.log LogLevel.warning
          "Critical patient has no assigned doctor for emergency contact"], []⟩) := by
  have hck : crisisHit "hello" = false := by decide
  have hcrit : (decideAlert 1 ((DBState.mk [] []).snapshots.take 5) "hello").is_critical
      = true := by
    norm_num [decideAlert, trendDecision, hck]
  exact C6_missing_assignment_logged_no_alert envNoAsg 1 patientRec 1 "hello"
    ⟨[], []⟩ rfl rfl rfl rfl hcrit rfl rfl

/-- Claim C9: when the user row is missing or the user is not a patient,
the check returns immediately with the world unchanged: no Alert, no
notification attempt, not even a log line. -/
theorem C9_alerts_only_for_patients (env : Env) (uid : Nat) (r : ℚ)
    (t : String) (s : DBState) (hgf : env.getUserFail = none)
    (h : env.users uid = none ∨
      ∃ u, env.users uid = some u ∧ u.user_type = UserType.doctor) :
    check_critical_mood_and_alert env uid r t s = (Except.ok (), s) := by
  unfold check_critical_mood_and_alert runCatch checkBody
  rcases h with h | ⟨u, hu, hd⟩
  · simp [bindM, tryOp, pureM, hgf, h]
  · simp [bindM, tryOp, pureM, hgf, hu, hd]

/-- Witness for C9: an unknown user id and a doctor id in env0. -/
theorem C9_witness :
    check_critical_mood_and_alert env0 99 1 "no point" ⟨[], []⟩ =
      (Except.ok (), ⟨[], []⟩) ∧
    check_critical_mood_and_alert env0 2 1 "no point" ⟨[], []⟩ =
      (Except.ok (), ⟨[], []⟩) := by
  constructor
  · exact C9_alerts_only_for_patients env0 99 1 "no point" ⟨[], []⟩ rfl
      (Or.inl rfl)
  · exact C9_alerts_only_for_patients env0 2 1 "no point" ⟨[], []⟩ rfl
      (Or.inr ⟨doctorRec, rfl, rfl⟩)

/-- Claim C1: for every collaborator behaviour the critical check returns
normally (all escalation failures are swallowed), and the surrounding chat
request still answers with the generated reply. -/
theorem C1_escalation_never_breaks_chat (env : Env) (u : UserRec) (uid : Nat)
    (r c : ℚ) (t msg reply : String) (s : DBState)
    (hcommit : env.commitChatFail = none) :
    (check_critical_mood_and_alert env uid r t s).1 = Except.ok () ∧
    (api_chat env (some u) (Except.ok (r, c)) msg reply s).1 =
      Except.ok (ChatOutcome.ok reply r) := by
  refine ⟨(check_spec env uid r t s).1, ?_⟩
  rw [apiChat_comp env u r c msg reply s hcommit]

/-- Witness for C1: an environment in which every escalation collaborator
raises, while the chat flow still completes normally. -/
theorem C1_witness :
    (check_critical_mood_and_alert
      { env0 with assignmentFail := some "db down",
                  commitAlertFail := some "db down",
                  voiceCallFail := some "provider down",
                  smsFail := some "provider down" } 1 1 "no point" ⟨[], []⟩).1
        = Except.ok () ∧
    (api_chat
      { env0 with assignmentFail := some "db down",
                  commitAlertFail := some "db down",
                  voiceCallFail := some "provider down",
                  smsFail := some "provider down" }
      (some patientRec) (Except.ok (1, 1)) "no point" "reply" ⟨[], []⟩).1
        = Except.ok (ChatOutcome.ok "reply" 1) := by
  exact C1_escalation_never_breaks_chat
    { env0 with assignmentFail := some "db down",
                commitAlertFail := some "db down",
                voiceCallFail := some "provider down",
                smsFail := some "provider down" }
    patientRec 1 1 1 "no point" "no point" "reply" ⟨[], []⟩ rfl

/-- Counterexample to C7 as stated: in the streaming chat pipeline a
scorer failure on a crisis utterance is not degraded to the neutral
default; the generator emits an error event, nothing is stored, and the
critical check never runs (no alert despite crisis text and an active
assignment). -/
theorem C7_counterexample :
    (api_chat_stream_tail env0 1 (Except.error "ScoringUnavailable") "no point"
      "reply" ⟨[], []⟩).1 = Except.ok StreamOutcome.errorEvent ∧
    countE isAddSnapshot esC7stream = 0 ∧
    countE isAddMessage esC7stream = 0 ∧
    countE isAddAlert esC7stream = 0 := by
  refine ⟨rfl, by decide, by decide, by decide⟩

/-- Claim C7 as amended: only the /api/chat endpoint degrades a scorer
failure to rating 3.0 / confidence 0.5 with a warning and continues
exactly like a run whose scorer returned the default; the streaming
endpoint instead aborts storage and the critical check with an error
event. -/
theorem C7_scorer_fallback_only_in_chat_endpoint (env : Env) (u : UserRec)
    (uid : Nat) (e msg reply : String) (s : DBState)
    (hgf : env.getUserFail = none) (hu : env.users uid = some u)
    (hcommit : env.commitChatFail = none) :
    api_chat env (some u) (Except.error e) msg reply s =
      api_chat env (some u) (Except.ok (3, 1/2)) msg reply
        { s with effects := s.effects ++
            [Effect.log LogLevel.warning ("Sentiment analysis failed: " ++ e)] } ∧
    (api_chat env (some u) (Except.error e) msg reply s).1 =
      Except.ok (ChatOutcome.ok reply 3) ∧
    api_chat_stream_tail env uid (Except.error e) msg reply s =
      (Except.ok StreamOutcome.errorEvent,
       { s with effects := s.effects ++
          [Effect.log LogLevel.error ("Streaming error: " ++ e)] }) := by
  have h1 : api_chat env (some u) (Except.error e) msg reply s =
      api_chat env (some u) (Except.ok (3, 1/2)) msg reply
        { s with effects := s.effects ++
            [Effect.log LogLevel.warning ("Sentiment analysis failed: " ++ e)] } := rfl
  refine ⟨h1, ?_, ?_⟩
  · rw [h1, apiChat_comp env u 3 (1/2) msg reply _ hcommit]
  · unfold api_chat_stream_tail streamTailBody
    simp [bindM, tryOp, liftE, hgf, hu]

/-- Witness for C7 at env0. -/
theorem C7_witness :
    api_chat env0 (some patientRec) (Except.error "ScoringUnavailable")
      "hello there" "reply" ⟨[], []⟩ =
      api_chat env0 (some patientRec) (Except.ok (3, 1/2)) "hello there" "reply"
        ⟨[Effect.log LogLevel.warning
           "Sentiment analysis failed: ScoringUnavailable"], []⟩ ∧
    (api_chat env0 (some patientRec) (Except.error "ScoringUnavailable")
      "hello there" "reply" ⟨[], []⟩).1 = Except.ok (ChatOutcome.ok "reply" 3) ∧
    api_chat_stream_tail env0 1 (Except.error "ScoringUnavailable")
      "hello there" "reply" ⟨[], []⟩ =
      (Except.ok StreamOutcome.errorEvent,
       ⟨[Effect.log LogLevel.error "Streaming error: ScoringUnavailable"], []⟩) := by
  exact C7_scorer_fallback_only_in_chat_endpoint env0 patientRec 1
    "ScoringUnavailable" "hello there" "reply" ⟨[], []⟩ rfl rfl rfl

/-- Counterexample to C8 as stated: the same crisis utterance commits an
Alert through the chat pipeline but commits none through the voice
pipeline, whose tail stores the snapshot and never invokes the critical
check. -/
theorem C8_counterexample :
    countE isAddAlert (voice_process_tail env0 1 (Except.ok (3, 1)) "no point"
      "reply" ⟨[], []⟩).2.effects = 0 ∧
    countE isAddSnapshot (voice_process_tail env0 1 (Except.ok (3, 1)) "no point"
      "reply" ⟨[], []⟩).2.effects = 1 ∧
    countE isAddAlert (api_chat env0 (some patientRec) (Except.ok (3, 1))
      "no point" "reply" ⟨[], []⟩).2.effects = 1 := by
  have hck : crisisHit "no point" = true := by decide
  refine ⟨by decide, by decide, ?_⟩
  norm_num [api_chat, apiChatBody, scoreWithFallback, check_critical_mood_and_alert,
    runCatch, checkBody, bindM, tryOp, emit, pureM, throwM, queryRecent,
    pushSnapshot, decideAlert, trendDecision, hck, env0, patientRec, doctorRec,
    call_doctor_for_critical_alert, callDoctorBody, triggerData, alertTypeText,
    sms_summary, countE, isAddAlert, List.filter_append]

/-- Claim C8 as amended: the voice pipeline scores and stores the
sentiment snapshot but never creates an Alert (the critical check is not
invoked there), while both chat endpoints run the critical check over the
post-commit history and return their normal outcome. -/
theorem C8_critical_check_only_on_chat_channel (env : Env) (uid : Nat)
    (u : UserRec) (scorer : Except String (ℚ × ℚ)) (speech reply : String)
    (s : DBState) (r c : ℚ) (msg : String) :
    countE isAddAlert (voice_process_tail env uid scorer speech reply s).2.effects
      = countE isAddAlert s.effects ∧
    (env.getUserFail = none → env.users uid = some u →
      env.commitChatFail = none →
      api_chat env (some u) (Except.ok (r, c)) msg reply s =
        (Except.ok (ChatOutcome.ok reply r),
         (check_critical_mood_and_alert env u.id r msg
           (chatPre r c msg reply s)).2) ∧
      api_chat_stream_tail env uid (Except.ok (r, c)) msg reply s =
        (Except.ok StreamOutcome.complete,
         (check_critical_mood_and_alert env u.id r msg
           (chatPre r c msg reply s)).2)) := by
  constructor
  · unfold voice_process_tail voiceTailBody voiceSentimentBlock runCatch
    cases h1 : env.getUserFail <;> cases h2 : env.users uid <;>
    cases h3 : env.commitChatFail <;> cases h4 : scorer <;>
    cases h5 : env.commitSnapFail <;>
    simp [bindM, tryOp, emit, pureM, throwM, liftE, pushSnapshot, countE,
      List.filter_append, isAddAlert, List.append_assoc]
  · intro hgf hu hcommit
    exact ⟨apiChat_comp env u r c msg reply s hcommit,
      stream_comp env uid u r c msg reply s hgf hu hcommit⟩

/-- Witness for C8 at env0. -/
theorem C8_witness :
    countE isAddAlert (voice_process_tail env0 1 (Except.ok (3, 1)) "no point"
      "reply" ⟨[], []⟩).2.effects = countE isAddAlert (DBState.mk [] []).effects ∧
    api_chat env0 (some patientRec) (Except.ok ((3 : ℚ), 1)) "no point" "reply"
      ⟨[], []⟩ =
      (Except.ok (ChatOutcome.ok "reply" 3),
       (check_critical_mood_and_alert env0 patientRec.id 3 "no point"
         (chatPre 3 1 "no point" "reply" ⟨[], []⟩)).2) ∧
    api_chat_stream_tail env0 1 (Except.ok ((3 : ℚ), 1)) "no point" "reply"
      ⟨[], []⟩ =
      (Except.ok StreamOutcome.complete,
       (check_critical_mood_and_alert env0 patientRec.id 3 "no point"
         (chatPre 3 1 "no point" "reply" ⟨[], []⟩)).2) := by
  have h := C8_critical_check_only_on_chat_channel env0 1 patientRec
    (Except.ok (3, 1)) "no point" "reply" ⟨[], []⟩ 3 1 "no point"
  exact ⟨h.1, (h.2 rfl rfl rfl).1, (h.2 rfl rfl rfl).2⟩

/-- Claim C10: the chat pipeline commits the current snapshot before the
critical check runs, so the queried 5-entry history starts with the
current rating, the 3-entry decline average includes it, and any Alert
committed by the run stores a recent_ratings list headed by the current
rating. -/
theorem C10_current_rating_heads_history (env : Env) (u : UserRec) (r c : ℚ)
    (msg reply : String) (s : DBState) (hcommit : env.commitChatFail = none) :
    api_chat env (some u) (Except.ok (r, c)) msg reply s =
      (Except.ok (ChatOutcome.ok reply r),
       (check_critical_mood_and_alert env u.id r msg
         (chatPre r c msg reply s)).2) ∧
    (chatPre r c msg reply s).snapshots = r :: s.snapshots ∧
    (chatPre r c msg reply s).snapshots.take 5 = r :: s.snapshots.take 4 ∧
    ((chatPre r c msg reply s).snapshots.take 5).take 3 = r :: s.snapshots.take 2 ∧
    (∀ a, Effect.addAlert a ∈
        (api_chat env (some u) (Except.ok (r, c)) msg reply s).2.effects →
      Effect.addAlert a ∈ s.effects ∨
        a.trigger_data = triggerData r msg (r :: s.snapshots.take 4)) := by
  have hcomp := apiChat_comp env u r c msg reply s hcommit
  have htake : (chatPre r c msg reply s).snapshots.take 5 = r :: s.snapshots.take 4 := by
    simp [chatPre]
  refine ⟨hcomp, by simp [chatPre], htake, ?_, ?_⟩
  · rw [htake]
    simp [List.take_take]
  · intro a ha
    rw [hcomp] at ha
    have hm := (check_spec env u.id r msg (chatPre r c msg reply s)).2.2.2.2 a ha
    rcases hm with hm | hm
    · simp only [chatPre, List.mem_append, List.mem_cons, List.mem_singleton] at hm
      rcases hm with hm | hm
      · exact Or.inl hm
      · simp at hm
    · right
      rw [hm]
      simp [alertOf, htake]

/-- Witness for C10 at env0. -/
theorem C10_witness :
    api_chat env0 (some patientRec) (Except.ok ((3 : ℚ), 1)) "hello" "reply"
      ⟨[], []⟩ =
      (Except.ok (ChatOutcome.ok "reply" 3),
       (check_critical_mood_and_alert env0 patientRec.id 3 "hello"
         (chatPre 3 1 "hello" "reply" ⟨[], []⟩)).2) ∧
    (chatPre 3 1 "hello" "reply" (⟨[], []⟩ : DBState)).snapshots.take 5 = [3] := by
  have h := C10_current_rating_heads_history env0 patientRec 3 1 "hello" "reply"
    ⟨[], []⟩ rfl
  exact ⟨h.1, by simpa using h.2.2.1⟩

end Aura
